import Mathlib

/-!
Verification development for the IPLCforms repository's PDF field-overlay
rendering pipeline.

The embedding follows the TypeScript source:

* `FieldSchema`, `TemplateData` — `src/components/PDFViewer.tsx` lines 5-21
  (the same interfaces are repeated in `PDFFormRenderer` and the designers).
* `renderFieldExport`, `renderPage`, `generatePDF` — the export path of
  `PDFViewer.tsx` `generatePDF` (lines 61-147): each field turns into the
  draw primitives described by the HTML fragment the code emits
  (absolute-positioned boxes in top-left-origin page space).  The CSS
  `overflow: hidden` declaration on each field box is modelled by
  `clipOverflowY`, which drops stacked content whose top lies at or below
  the box's bottom edge.
* `renderFieldPreview`, `generatePreview` — the design-time preview path of
  the multi-page designer (`generatePreview`), which renders placeholder
  labels and never consults a data record.
* `MultiPageDesigner.updateField` / `deleteField` — the designer variant
  that edits only the current page; `PdfLibDesigner.updateField` /
  `deleteField` — the variant in `src/components/PDFTemplateDesigner.tsx`
  that maps over every page.
* `validateForm` — `PDFFormRenderer.validateForm`.
* `pdfYFromTop`, `pdfTopEdge`, `pdfBottomEdge` — the conversion from the
  top-left-origin page space used by the generated HTML to the
  bottom-left-origin PDF content space.

JavaScript numbers are embedded as `ℚ` (exact arithmetic; floating point
rounding is not modelled), strings as `String`, and runtime values of the
data record as `JSValue`.  String-level helpers (`splitOnChar`, `jsTrim`,
`emailOK`, `jsNumberIsNaN`) are executable char-list models of the
JavaScript operations the source uses (`split`, `trim`, the email regex
`^[^\s@]+@[^\s@]+\.[^\s@]+$`, and `isNaN(Number(s))`).
-/

namespace IPLCForms

/-! ## JavaScript string primitives -/

/-- Whitespace characters recognised by JavaScript's `trim`, `split` and
`Number` conversions (ASCII whitespace plus NBSP and the BOM). -/
def jsWhitespace (c : Char) : Bool :=
  c = ' ' || c = '\t' || c = '\n' || c = '\x0d' || c = '\x0b' || c = '\x0c' ||
  c = '\u00A0' || c = '\uFEFF'

/-- Splitting a character list on a separator character, as JavaScript's
`String.prototype.split` does with a single-character separator: the result
always has one more part than there are separators, and parts may be empty. -/
def splitOnChar (sep : Char) : List Char → List (List Char)
  | [] => [[]]
  | c :: rest =>
    if c = sep then [] :: splitOnChar sep rest
    else
      match splitOnChar sep rest with
      | l :: ls => (c :: l) :: ls
      | [] => [[c]]

/-- `text.split('\n')` from the textarea branch of `generatePDF`. -/
def splitLines (s : String) : List String :=
  (splitOnChar '\n' s.toList).map String.mk

/-- JavaScript `String.prototype.trim`. -/
def jsTrim (s : String) : String :=
  String.mk (((s.toList.dropWhile jsWhitespace).reverse.dropWhile jsWhitespace).reverse)

/-- The email regex `^[^\s@]+@[^\s@]+\.[^\s@]+$` from `validateForm`:
the string must contain exactly one `@` (every other character class in the
pattern excludes `@`), the part before it must be nonempty and free of
whitespace, and the part after it must be free of whitespace and contain a
dot that has at least one character on each side. -/
def emailOK (s : String) : Bool :=
  match splitOnChar '@' s.toList with
  | [a, r] =>
    !a.isEmpty && a.all (fun c => !jsWhitespace c) &&
    r.all (fun c => !jsWhitespace c) &&
    ((r.drop 1).dropLast.contains '.')
  | _ => false

def isDigitC (c : Char) : Bool := '0' ≤ c && c ≤ '9'

def isHexDigitC (c : Char) : Bool :=
  isDigitC c || ('a' ≤ c && c ≤ 'f') || ('A' ≤ c && c ≤ 'F')

def isOctDigitC (c : Char) : Bool := '0' ≤ c && c ≤ '7'

def isBinDigitC (c : Char) : Bool := c = '0' || c = '1'

/-- A nonempty run of characters all satisfying `p`. -/
def digitsAll (p : Char → Bool) (l : List Char) : Bool :=
  !l.isEmpty && l.all p

/-- An optional exponent part `[eE][+-]?digits` closing a decimal literal. -/
def expPartOK : List Char → Bool
  | [] => true
  | c :: r =>
    (c = 'e' || c = 'E') &&
    (match r with
     | s :: r2 => if s = '+' || s = '-' then digitsAll isDigitC r2 else digitsAll isDigitC (s :: r2)
     | [] => false)

/-- An unsigned decimal literal `digits[.digits][exp]`, `.digits[exp]`
or `digits[exp]`. -/
def decLitOK (l : List Char) : Bool :=
  let d1 := l.takeWhile isDigitC
  let r1 := l.dropWhile isDigitC
  if d1.isEmpty then
    match r1 with
    | '.' :: r2 => digitsAll isDigitC (r2.takeWhile isDigitC) && expPartOK (r2.dropWhile isDigitC)
    | _ => false
  else
    match r1 with
    | '.' :: r2 => expPartOK (r2.dropWhile isDigitC)
    | _ => expPartOK r1

/-- An optionally signed decimal literal or `Infinity`. -/
def strDecimalOK (l : List Char) : Bool :=
  match l with
  | '+' :: r => decLitOK r || r = "Infinity".toList
  | '-' :: r => decLitOK r || r = "Infinity".toList
  | _ => decLitOK l || l = "Infinity".toList

/-- An unsigned non-decimal integer literal `0x…`, `0o…` or `0b…`. -/
def nonDecimalOK (l : List Char) : Bool :=
  match l with
  | '0' :: x :: r =>
    ((x = 'x' || x = 'X') && digitsAll isHexDigitC r) ||
    ((x = 'o' || x = 'O') && digitsAll isOctDigitC r) ||
    ((x = 'b' || x = 'B') && digitsAll isBinDigitC r)
  | _ => false

/-- `isNaN(Number(s))` from the `number` branch of `validateForm`, following
ECMAScript string-to-number conversion: surrounding whitespace is dropped, an
empty remainder converts to `0` (not NaN), and otherwise the remainder must be
a decimal literal, `Infinity`, or a hex/octal/binary integer literal. -/
def jsNumberIsNaN (s : String) : Bool :=
  let t := (s.toList.dropWhile jsWhitespace).reverse.dropWhile jsWhitespace |>.reverse
  if t.isEmpty then false
  else !(strDecimalOK t || nonDecimalOK t)

/-! ## Runtime values and data records -/

/-- A JavaScript runtime value as stored in a form-data record. -/
inductive JSValue where
  | undefined
  | null
  | bool (b : Bool)
  | num (q : ℚ)
  | str (s : String)
  deriving DecidableEq

/-- JavaScript truthiness of a `JSValue`. -/
def jsTruthy : JSValue → Bool
  | .undefined => false
  | .null => false
  | .bool b => b
  | .num q => decide (q ≠ 0)
  | .str s => decide (s ≠ "")

/-- `String(value)`: stringification used by the export renderer.  Numeric
formatting is abstracted by `ℚ`'s string representation; no claim depends on
the exact digits. -/
def jsToString : JSValue → String
  | .undefined => "undefined"
  | .null => "null"
  | .bool b => if b then "true" else "false"
  | .num q => toString q
  | .str s => s

/-- A `DataRecord` maps field names to values (`data[field.name]`). -/
def DataRecord : Type := List (String × JSValue)

/-- Property access `data[field.name]`: a missing key reads as `undefined`. -/
def lookupValue (d : DataRecord) (k : String) : JSValue :=
  match d.find? (fun p => p.1 == k) with
  | some p => p.2
  | none => .undefined

/-! ## Template data model (`FieldSchema`, `TemplateData`) -/

/-- One placeable form field (`FieldSchema` in the source).  The `type` is a
runtime string; the TypeScript union is erased at runtime and `generatePDF`
switches on the string with a `default` case. -/
structure FieldSchema where
  name : String
  type : String
  x : ℚ
  y : ℚ
  width : ℚ
  height : ℚ
  fontSize : Option ℚ := none
  required : Bool := false
  placeholder : Option String := none
  deriving DecidableEq

/-- `TemplateData` in the source: pages of fields plus optional base
document and sample data. -/
structure TemplateData where
  schemas : List (List FieldSchema)
  basePdf : Option String := none
  sampledata : Option (List DataRecord) := none

/-- JavaScript `opt || dflt` on an optional number (`field.fontSize || 12`):
`undefined` and `0` are falsy and select the default. -/
def jsOrNum (o : Option ℚ) (dflt : ℚ) : ℚ :=
  match o with
  | some q => if q = 0 then dflt else q
  | none => dflt

/-- JavaScript `opt || dflt` on an optional string
(`field.placeholder || 'Textarea'`): `undefined` and `""` select the default. -/
def jsOrStr (o : Option String) (dflt : String) : String :=
  match o with
  | some s => if s = "" then dflt else s
  | none => dflt

/-- `const fontSize = field.fontSize || 12` (`PDFViewer.tsx` line 77). -/
def fontSizeOf (f : FieldSchema) : ℚ := jsOrNum f.fontSize 12

/-- The CSS line height `fontSize * 1.2` set by `line-height: 1.2` on the
field box (`PDFViewer.tsx` line 88). -/
def lineHeight (f : FieldSchema) : ℚ := fontSizeOf f * (6 / 5)

/-! ## Draw primitives -/

/-- An abstract draw primitive, one per visual element of the HTML fragments
the export and preview paths emit.  Coordinates are top-left-origin design
units, exactly the `left`/`top`/`width`/`height` values written into the
inline styles. -/
inductive Primitive where
  | borderRect (x y w h bw : ℚ)
  | glyph (g : Char) (x y w h : ℚ)
  | textLine (s : String) (x y w h fontSize : ℚ)
  deriving DecidableEq

/-- The top edge of a primitive's box. -/
def primTop : Primitive → ℚ
  | .borderRect _ y _ _ _ => y
  | .glyph _ _ y _ _ => y
  | .textLine _ _ y _ _ _ => y

/-! ## Export path (`PDFViewer.tsx` `generatePDF`) -/

/-- The non-breaking space substituted for an empty textarea line
(`${line || '&nbsp;'}`, line 115). -/
def nbspLine (s : String) : String :=
  if s = "" then String.mk ['\u00A0'] else s

/-- The stacked line boxes of a textarea value: line `i` of
`String(value).split('\n')` occupies a box of height `lineHeight` whose top
offset inside the field is `i * lineHeight` (lines 110-117). -/
def renderTextareaLines (f : FieldSchema) (text : String) : List Primitive :=
  (splitLines text).enum.map fun p =>
    Primitive.textLine (nbspLine p.2) f.x (f.y + lineHeight f * p.1) f.width
      (lineHeight f) (fontSizeOf f)

/-- The effect of `overflow: hidden` (line 87) on stacked content: a child
box whose top lies at or below the field box's bottom edge is clipped away
entirely and draws nothing. -/
def clipOverflowY (f : FieldSchema) (ps : List Primitive) : List Primitive :=
  ps.filter fun p => primTop p < f.y + f.height

/-- The draw primitives one field contributes to the export output
(`pageSchemas.map(field => …)`, lines 73-126): a missing (`undefined` or
`null`) value yields nothing; a checkbox yields a 1-unit border around a
square of side `min(width, height)` at the field's top-left corner plus, for
truthy values, a centered check glyph; a textarea yields its clipped stacked
lines; every other `type` string falls to the `default` case and yields one
single line of text in the field box. -/
def renderFieldExport (d : DataRecord) (f : FieldSchema) : List Primitive :=
  let v := lookupValue d f.name
  if v = JSValue.undefined ∨ v = JSValue.null then []
  else if f.type = "checkbox" then
    let cb := min f.width f.height
    Primitive.borderRect f.x f.y cb cb 1 ::
      (if jsTruthy v then [Primitive.glyph '✓' f.x f.y cb cb] else [])
  else if f.type = "textarea" then
    clipOverflowY f (renderTextareaLines f (jsToString v))
  else
    [Primitive.textLine (jsToString v) f.x f.y f.width f.height (fontSizeOf f)]

/-- One page's primitives, fields in insertion order
(`pageSchemas.map(…).join('')`). -/
def renderPage (d : DataRecord) (fields : List FieldSchema) : List Primitive :=
  (fields.map (renderFieldExport d)).flatten

/-- The per-page output of the export path, pages in schema-array order
(`template.schemas.map(pageSchemas => …)`, lines 61-131).  The subsequent
rasterisation to bytes is performed by the html2canvas and jsPDF libraries
and is outside this repository's code. -/
def generatePDF (t : TemplateData) (d : DataRecord) : List (List Primitive) :=
  t.schemas.map (renderPage d)

/-- The hard-coded letter page width in points (`PDFViewer.tsx` line 176). -/
def pageWidthPt : ℚ := 612

/-- The hard-coded letter page height in points (`PDFViewer.tsx` line 177). -/
def pageHeightPt : ℚ := 792

/-- The hard-coded html2canvas scale factor (`PDFViewer.tsx` line 160). -/
def canvasScale : ℚ := 2

/-- The ambient browser environment of one render invocation; the only part
the component reads is the clock (`Date.now()`). -/
structure RenderEnv where
  now : Nat

/-- The download filename `form-${Date.now()}.pdf` (`PDFViewer.tsx` line 258),
the single timestamped element of the export flow. -/
def downloadName (e : RenderEnv) : String :=
  "form-" ++ toString e.now ++ ".pdf"

/-- One full export invocation in an environment: the primitive output paired
with the timestamped download filename. -/
def generatePDFRun (e : RenderEnv) (t : TemplateData) (d : DataRecord) :
    List (List Primitive) × String :=
  (generatePDF t d, downloadName e)

/-! ## Design-time preview path (multi-page designer, `generatePreview`) -/

/-- The preview fragment of one field (`generatePreview`): every field box
carries a 1-unit border, a checkbox shows the empty-box glyph, and the other
kinds show their placeholder label (falling back to `'Textarea'` or the type
name); no data record is consulted. -/
def renderFieldPreview (f : FieldSchema) : List Primitive :=
  if f.type = "checkbox" then
    [Primitive.borderRect f.x f.y f.width f.height 1,
     Primitive.glyph '☐' f.x f.y f.width f.height]
  else if f.type = "textarea" then
    [Primitive.borderRect f.x f.y f.width f.height 1,
     Primitive.textLine (jsOrStr f.placeholder "Textarea") f.x f.y f.width f.height (fontSizeOf f)]
  else
    [Primitive.borderRect f.x f.y f.width f.height 1,
     Primitive.textLine (jsOrStr f.placeholder f.type) f.x f.y f.width f.height (fontSizeOf f)]

/-- The preview document: pages in order, placeholder fragments per field. -/
def generatePreview (t : TemplateData) : List (List Primitive) :=
  t.schemas.map fun page => (page.map renderFieldPreview).flatten

/-! ## Designer field editing -/

namespace MultiPageDesigner

/-- `updateField` of the multi-page designer: replace the first field of the
current page whose name matches; when no field on the current page matches
(or the page index is out of range) the schemas are unchanged. -/
def updateField (schemas : List (List FieldSchema)) (currentPage : Nat)
    (updatedField : FieldSchema) : List (List FieldSchema) :=
  let pageFields := (schemas.get? currentPage).getD []
  match pageFields.findIdx? (fun f => f.name == updatedField.name) with
  | some i =>
    schemas.set currentPage (pageFields.take i ++ updatedField :: pageFields.drop (i + 1))
  | none => schemas

/-- `deleteField` of the multi-page designer: remove every field of the
current page with the given name. -/
def deleteField (schemas : List (List FieldSchema)) (currentPage : Nat)
    (fieldName : String) : List (List FieldSchema) :=
  schemas.set currentPage (((schemas.get? currentPage).getD []).filter fun f => f.name ≠ fieldName)

end MultiPageDesigner

namespace PdfLibDesigner

/-- `updateField` of `src/components/PDFTemplateDesigner.tsx` lines 113-126:
`prev.schemas.map(pageSchema => pageSchema.map(field => field.name ===
updatedField.name ? updatedField : field))` — every page is traversed. -/
def updateField (schemas : List (List FieldSchema))
    (updatedField : FieldSchema) : List (List FieldSchema) :=
  schemas.map fun pageSchema =>
    pageSchema.map fun f => if f.name = updatedField.name then updatedField else f

/-- `deleteField` of `src/components/PDFTemplateDesigner.tsx` lines 128-139:
`prev.schemas.map(pageSchema => pageSchema.filter(field => field.name !==
fieldName))` — every page is traversed. -/
def deleteField (schemas : List (List FieldSchema))
    (fieldName : String) : List (List FieldSchema) :=
  schemas.map fun pageSchema => pageSchema.filter fun f => f.name ≠ fieldName

end PdfLibDesigner

/-! ## Coordinate transform into PDF content space -/

/-- Modelled from the spec: the conversion from the top-left-origin page
space of the HTML the export path emits to the bottom-left-origin PDF
content space is performed inside the third-party html2canvas/jsPDF backend,
not in this repository's code; a vertical coordinate `d` measured downward
from the top of a page of height `H` corresponds to PDF coordinate `H - d`. -/
def pdfYFromTop (H d : ℚ) : ℚ := H - d

/-- The PDF-space coordinate of a field box's top edge. -/
def pdfTopEdge (H : ℚ) (f : FieldSchema) : ℚ := pdfYFromTop H f.y

/-- The PDF-space coordinate of a field box's bottom edge (the image of the
original bottom edge `y + height`). -/
def pdfBottomEdge (H : ℚ) (f : FieldSchema) : ℚ := pdfYFromTop H (f.y + f.height)

/-! ## Form validation (`PDFFormRenderer.validateForm`) -/

/-- All fields of all pages in order (`getAllFields`). -/
def getAllFields (t : TemplateData) : List FieldSchema :=
  t.schemas.flatten

/-- The required-field check of `validateForm`:
`!value || (typeof value === 'string' && value.trim() === '')`. -/
def requiredErrorB (f : FieldSchema) (v : JSValue) : Bool :=
  f.required &&
    (!jsTruthy v ||
      (match v with
       | .str s => jsTrim s = ""
       | _ => false))

/-- The kind-specific check of `validateForm`, gated on
`value && typeof value === 'string'`: an email must match the regex, a
number must not convert to NaN. -/
def typeErrorB (f : FieldSchema) (v : JSValue) : Bool :=
  match v with
  | .str s =>
    if s = "" then false
    else if f.type = "email" then !emailOK s
    else if f.type = "number" then jsNumberIsNaN s
    else false
  | _ => false

/-- The error entries `validateForm` records for one field. -/
def fieldErrors (f : FieldSchema) (v : JSValue) : List (String × String) :=
  (if requiredErrorB f v then [(f.name, f.name ++ " is required")] else []) ++
  (if typeErrorB f v then
    [(f.name,
      if f.type = "email" then "Please enter a valid email address"
      else "Please enter a valid number")]
   else [])

/-- The accumulated `newErrors` entries over all fields. -/
def validateErrors (t : TemplateData) (fd : DataRecord) : List (String × String) :=
  ((getAllFields t).map fun f => fieldErrors f (lookupValue fd f.name)).flatten

/-- `validateForm`: true exactly when no error entry was recorded
(`Object.keys(newErrors).length === 0`). -/
def validateForm (t : TemplateData) (fd : DataRecord) : Bool :=
  (validateErrors t fd).isEmpty

/-- The kind-specific check named by the claim, for a non-empty string value. -/
def kindCheckOK (ty : String) (s : String) : Bool :=
  if ty = "email" then emailOK s
  else if ty = "number" then !jsNumberIsNaN s
  else true

/-- The claim's declarative description of one field's validity: when
required, the value is truthy and not a whitespace-only string; when the
value is a non-empty string, it passes its kind-specific check. -/
def specFieldOK (f : FieldSchema) (v : JSValue) : Bool :=
  (!f.required ||
    (jsTruthy v &&
      !(match v with
        | .str s => jsTrim s = ""
        | _ => false))) &&
  (match v with
   | .str s => s = "" || kindCheckOK f.type s
   | _ => true)

/-- The claim's declarative description of validity, written from its words:
every field satisfies `specFieldOK` on its looked-up value. -/
def validSpec (t : TemplateData) (fd : DataRecord) : Bool :=
  (getAllFields t).all fun f => specFieldOK f (lookupValue fd f.name)

/-! ## Concrete sample values used by witnesses and counterexamples -/

/-- The worked example of the spec: `x=100, y=100, w=150, h=30`. -/
def sampleTextField : FieldSchema :=
  { name := "patient_name", type := "text", x := 100, y := 100, width := 150, height := 30,
    fontSize := some 12, required := false, placeholder := some "Enter text" }

def sampleEmptyRecord : DataRecord := []

def sampleCheckboxField : FieldSchema :=
  { name := "consent", type := "checkbox", x := 50, y := 60, width := 20, height := 20,
    fontSize := some 12 }

def sampleCheckedRecord : DataRecord := [("consent", JSValue.bool true)]

def unknownKindField : FieldSchema :=
  { name := "mystery", type := "unknown", x := 100, y := 100, width := 150, height := 30,
    fontSize := some 12 }

def unknownKindRecord : DataRecord := [("mystery", JSValue.str "hello")]

def dupFieldPage0 : FieldSchema :=
  { name := "dup", type := "text", x := 0, y := 0, width := 10, height := 10 }

def dupFieldPage1 : FieldSchema :=
  { name := "dup", type := "text", x := 5, y := 5, width := 10, height := 10 }

def dupFieldMoved : FieldSchema :=
  { name := "dup", type := "text", x := 99, y := 0, width := 10, height := 10 }

def degenerateField : FieldSchema :=
  { name := "w", type := "text", x := 10, y := 10, width := 0, height := -5 }

def degenerateRecord : DataRecord := [("w", JSValue.str "x")]

/-! ## Claims -/

/-- Claim C1: for every field rectangle and page height `H > 0`, the
transform into bottom-left-origin PDF space maps the rectangle's bottom edge
to `H - y - h` and its top edge to `H - y`. -/
theorem pdf_transform_edges (f : FieldSchema) (H : ℚ) (hH : 0 < H) :
    pdfBottomEdge H f = H - f.y - f.height ∧ pdfTopEdge H f = H - f.y := by
  constructor
  · unfold pdfBottomEdge pdfYFromTop; ring
  · rfl

/-- Witness for C1, at the spec's worked example on the hard-coded letter
page: `x=100, y=100, w=150, h=30, H=792` gives bottom edge `662`. -/
theorem pdf_transform_edges_witness :
    (0 : ℚ) < pageHeightPt ∧
    pdfBottomEdge pageHeightPt sampleTextField = 662 ∧
    pdfTopEdge pageHeightPt sampleTextField = 692 := by
  have h := pdf_transform_edges sampleTextField pageHeightPt (by norm_num [pageHeightPt])
  refine ⟨by norm_num [pageHeightPt], ?_, ?_⟩
  · rw [h.1]; norm_num [sampleTextField, pageHeightPt]
  · rw [h.2]; norm_num [sampleTextField, pageHeightPt]

/-- Claim C2: a field whose value is missing (`undefined` or `null`)
contributes no draw primitive in the export path, while the design-time
preview still renders it (with a placeholder label for non-checkbox kinds). -/
theorem absent_value_skip (f : FieldSchema) (d : DataRecord)
    (hv : lookupValue d f.name = JSValue.undefined ∨ lookupValue d f.name = JSValue.null) :
    renderFieldExport d f = [] ∧
    renderFieldPreview f ≠ [] ∧
    (f.type ≠ "checkbox" →
      Primitive.textLine (jsOrStr f.placeholder (if f.type = "textarea" then "Textarea" else f.type))
        f.x f.y f.width f.height (fontSizeOf f) ∈ renderFieldPreview f) := by
  refine ⟨?_, ?_, ?_⟩
  · unfold renderFieldExport
    rw [if_pos hv]
  · unfold renderFieldPreview
    split_ifs <;> simp
  · intro hcb
    by_cases hta : f.type = "textarea" <;> simp [renderFieldPreview, hcb, hta]

/-- Witness for C2: an empty data record leaves the sample text field
undrawn in the export, while its preview output is nonempty. -/
theorem absent_value_skip_witness :
    lookupValue sampleEmptyRecord sampleTextField.name = JSValue.undefined ∧
    renderFieldExport sampleEmptyRecord sampleTextField = [] ∧
    renderFieldPreview sampleTextField ≠ [] := by
  have h := absent_value_skip sampleTextField sampleEmptyRecord (Or.inl (by decide))
  exact ⟨by decide, h.1, h.2.1⟩

/-- Claim C3: for a checkbox field with a present value, the border square of
side `min(width, height)` at the field's top-left corner is always drawn;
a falsy value yields exactly that one primitive and a truthy value yields
exactly the border plus the centered check glyph. -/
theorem checkbox_border_glyph (f : FieldSchema) (d : DataRecord)
    (hty : f.type = "checkbox")
    (h1 : lookupValue d f.name ≠ JSValue.undefined)
    (h2 : lookupValue d f.name ≠ JSValue.null) :
    Primitive.borderRect f.x f.y (min f.width f.height) (min f.width f.height) 1 ∈
      renderFieldExport d f ∧
    (jsTruthy (lookupValue d f.name) = false →
      renderFieldExport d f =
        [Primitive.borderRect f.x f.y (min f.width f.height) (min f.width f.height) 1]) ∧
    (jsTruthy (lookupValue d f.name) = true →
      renderFieldExport d f =
        [Primitive.borderRect f.x f.y (min f.width f.height) (min f.width f.height) 1,
         Primitive.glyph '✓' f.x f.y (min f.width f.height) (min f.width f.height)]) := by
  have hne : ¬(lookupValue d f.name = JSValue.undefined ∨ lookupValue d f.name = JSValue.null) := by
    rintro (h | h)
    · exact h1 h
    · exact h2 h
  cases htr : jsTruthy (lookupValue d f.name) <;>
    simp [renderFieldExport, hne, hty, htr]

/-- Witness for C3: a checked 20×20 checkbox renders the border square plus
the check glyph. -/
theorem checkbox_border_glyph_witness :
    renderFieldExport sampleCheckedRecord sampleCheckboxField =
      [Primitive.borderRect 50 60 20 20 1, Primitive.glyph '✓' 50 60 20 20] := by
  have h := checkbox_border_glyph sampleCheckboxField sampleCheckedRecord rfl
    (by decide) (by decide)
  rw [h.2.2 (by decide)]
  decide

/-- Claim C5 counterexample: a field whose `type` is the unrecognized string
`"unknown"` does not make the render fail; the `default` switch case renders
it as a single line of text, so a default visual is substituted and output is
produced. -/
theorem unknown_kind_renders_default_cex :
    unknownKindField.type = "unknown" ∧
    renderFieldExport unknownKindRecord unknownKindField =
      [Primitive.textLine "hello" 100 100 150 30 12] := by
  decide

/-- Claim C5 amended: every field whose `type` is neither `"checkbox"` nor
`"textarea"` — including unknown kinds — is rendered by the `default` case as
one single-line text primitive; the render never aborts on an unrecognized
kind and no `UnsupportedFieldKind` condition exists. -/
theorem unknown_kind_default_single_line (f : FieldSchema) (d : DataRecord)
    (hcb : f.type ≠ "checkbox") (hta : f.type ≠ "textarea")
    (h1 : lookupValue d f.name ≠ JSValue.undefined)
    (h2 : lookupValue d f.name ≠ JSValue.null) :
    renderFieldExport d f =
      [Primitive.textLine (jsToString (lookupValue d f.name)) f.x f.y f.width f.height
        (fontSizeOf f)] := by
  have hne : ¬(lookupValue d f.name = JSValue.undefined ∨ lookupValue d f.name = JSValue.null) := by
    rintro (h | h)
    · exact h1 h
    · exact h2 h
  simp [renderFieldExport, hne, hcb, hta]

/-- Witness for amended C5, at the unknown-kind field. -/
theorem unknown_kind_default_single_line_witness :
    renderFieldExport unknownKindRecord unknownKindField =
      [Primitive.textLine "hello" 100 100 150 30 12] := by
  have h := unknown_kind_default_single_line unknownKindField unknownKindRecord
    (by decide) (by decide) (by decide) (by decide)
  rw [h]
  decide

/-- Claim C6: the export output has one entry per schema page, the entry at
index `i` is exactly the render of schema page `i` (so page order mirrors
schema-array order regardless of the fields inside), and each page renders
its fields in insertion order (rendering is a homomorphism for field-list
concatenation). -/
theorem page_order_fidelity (t : TemplateData) (d : DataRecord) :
    (generatePDF t d).length = t.schemas.length ∧
    (∀ i : Nat, (generatePDF t d).get? i = (t.schemas.get? i).map (renderPage d)) ∧
    (∀ fs1 fs2 : List FieldSchema,
      renderPage d (fs1 ++ fs2) = renderPage d fs1 ++ renderPage d fs2) := by
  refine ⟨by simp [generatePDF], fun i => ?_, fun fs1 fs2 => ?_⟩
  · simp [generatePDF, List.get?_map]
  · simp [renderPage]

/-- Claim C7 counterexample: in `src/components/PDFTemplateDesigner.tsx`,
deleting (or updating) the field named `dup` while page 0 is being edited
also deletes (or rewrites) the same-named field on page 1, so per-page
addressing fails there. -/
theorem delete_field_cross_page_cex :
    PdfLibDesigner.deleteField [[dupFieldPage0], [dupFieldPage1]] "dup" = [[], []] ∧
    (PdfLibDesigner.deleteField [[dupFieldPage0], [dupFieldPage1]] "dup").get? 1 ≠
      ([[dupFieldPage0], [dupFieldPage1]] : List (List FieldSchema)).get? 1 ∧
    (PdfLibDesigner.updateField [[dupFieldPage0], [dupFieldPage1]] dupFieldMoved).get? 1 ≠
      ([[dupFieldPage0], [dupFieldPage1]] : List (List FieldSchema)).get? 1 := by
  decide

/-- Claim C7 amended: only the multi-page designer addresses fields per page:
its `updateField` and `deleteField` leave every page other than the current
one unchanged, even when a same-named field exists there; the
`PDFTemplateDesigner.tsx` variant instead applies the edit to every page. -/
theorem multipage_update_delete_frame (schemas : List (List FieldSchema))
    (currentPage j : Nat) (u : FieldSchema) (nm : String) (hj : j ≠ currentPage) :
    (MultiPageDesigner.updateField schemas currentPage u).get? j = schemas.get? j ∧
    (MultiPageDesigner.deleteField schemas currentPage nm).get? j = schemas.get? j := by
  have hset : ∀ pg : List FieldSchema, (schemas.set currentPage pg).get? j = schemas.get? j := by
    intro pg
    simp only [List.get?_eq_getElem?]
    exact List.getElem?_set_ne (fun h => hj h.symm)
  constructor
  · unfold MultiPageDesigner.updateField
    dsimp only
    cases hfi : (((schemas.get? currentPage).getD []).findIdx?
        (fun f => f.name == u.name)) with
    | none => rfl
    | some i => exact hset _
  · exact hset _

/-- Witness for amended C7: deleting or updating `dup` on page 0 of the
multi-page designer leaves page 1 intact. -/
theorem multipage_update_delete_frame_witness :
    (MultiPageDesigner.deleteField [[dupFieldPage0], [dupFieldPage1]] 0 "dup").get? 1 =
      some [dupFieldPage1] ∧
    (MultiPageDesigner.updateField [[dupFieldPage0], [dupFieldPage1]] 0 dupFieldMoved).get? 1 =
      some [dupFieldPage1] := by
  have h := multipage_update_delete_frame [[dupFieldPage0], [dupFieldPage1]] 0 1 dupFieldMoved
    "dup" (by decide)
  exact ⟨by rw [h.2]; rfl, by rw [h.1]; rfl⟩

/-- Claim C8 counterexample: a field with non-positive width and height (the
spec's `InvalidGeometry` situation) is still rendered — the export emits its
text primitive instead of failing, so output is produced with degenerate
geometry and no `InvalidGeometry` condition exists. -/
theorem degenerate_geometry_renders_cex :
    degenerateField.width ≤ 0 ∧ degenerateField.height ≤ 0 ∧
    renderFieldExport degenerateRecord degenerateField =
      [Primitive.textLine "x" 10 10 0 (-5) 12] := by
  decide

/-- Claim C8 amended: the export path performs no geometry validation: the
page height and canvas scale are the hard-coded positive constants 792 and 2
(so a render invocation with non-positive page height or scale cannot occur),
and a field with arbitrary — including non-positive — dimensions still
produces output rather than failing. -/
theorem no_invalid_geometry_check (f : FieldSchema) (d : DataRecord)
    (hcb : f.type ≠ "checkbox") (hta : f.type ≠ "textarea")
    (h1 : lookupValue d f.name ≠ JSValue.undefined)
    (h2 : lookupValue d f.name ≠ JSValue.null) :
    pageHeightPt = 792 ∧ canvasScale = 2 ∧ renderFieldExport d f ≠ [] := by
  have hne : ¬(lookupValue d f.name = JSValue.undefined ∨ lookupValue d f.name = JSValue.null) := by
    rintro (h | h)
    · exact h1 h
    · exact h2 h
  refine ⟨rfl, rfl, ?_⟩
  simp [renderFieldExport, hne, hcb, hta]

/-- Witness for amended C8, at the degenerate-dimension field. -/
theorem no_invalid_geometry_check_witness :
    degenerateField.width = 0 ∧
    renderFieldExport degenerateRecord degenerateField ≠ [] := by
  have h := no_invalid_geometry_check degenerateField degenerateRecord
    (by decide) (by decide) (by decide) (by decide)
  exact ⟨by decide, h.2.2⟩

/-- Claim C9: the primitive output of an export invocation depends only on
the template and the data record — two runs in different environments (the
clock being the only environmental input the component reads, used solely
for the download filename) produce identical primitive sequences. -/
theorem render_deterministic (e1 e2 : RenderEnv) (t : TemplateData) (d : DataRecord) :
    (generatePDFRun e1 t d).1 = (generatePDFRun e2 t d).1 ∧
    generatePDF t d = generatePDF t d := ⟨rfl, rfl⟩

/-- Claim C4: a textarea field with a present value renders exactly the
lines of `String(value).split('\n')`, in order, stacked at line height
`fontSize * 1.2`, keeping precisely those lines whose top offset inside the
field is strictly less than the field's height (no shrinking, no ellipsis). -/
theorem textarea_line_clipping (f : FieldSchema) (d : DataRecord)
    (hta : f.type = "textarea")
    (h1 : lookupValue d f.name ≠ JSValue.undefined)
    (h2 : lookupValue d f.name ≠ JSValue.null) :
    renderFieldExport d f =
      (((splitLines (jsToString (lookupValue d f.name))).enum.filter
          fun p => lineHeight f * (p.1 : ℚ) < f.height).map
        fun p => Primitive.textLine (nbspLine p.2) f.x (f.y + lineHeight f * (p.1 : ℚ))
          f.width (lineHeight f) (fontSizeOf f)) := by
  have hne : ¬(lookupValue d f.name = JSValue.undefined ∨ lookupValue d f.name = JSValue.null) := by
    rintro (h | h)
    · exact h1 h
    · exact h2 h
  have hcb : f.type ≠ "checkbox" := by rw [hta]; decide
  have hmain : renderFieldExport d f =
      clipOverflowY f (renderTextareaLines f (jsToString (lookupValue d f.name))) := by
    simp [renderFieldExport, hne, hcb, hta]
  rw [hmain]
  unfold clipOverflowY renderTextareaLines
  rw [List.filter_map]
  congr 1
  apply List.filter_congr
  intro p hp
  simp only [Function.comp_apply, primTop]
  rw [decide_eq_decide]
  exact add_lt_add_iff_left f.y

def sampleTextareaField : FieldSchema :=
  { name := "notes", type := "textarea", x := 10, y := 0, width := 150, height := 40,
    fontSize := some 20 }

def sampleTextareaRecord : DataRecord := [("notes", JSValue.str "alpha\nbeta\ngamma")]

/-- Witness for C4, at the spec's worked example: height 40, font size 20
(line height 24), three lines — the lines with tops 0 and 24 are kept, the
line with top 48 is clipped. -/
theorem textarea_line_clipping_witness :
    renderFieldExport sampleTextareaRecord sampleTextareaField =
      [Primitive.textLine "alpha" 10 0 150 24 20,
       Primitive.textLine "beta" 10 24 150 24 20] := by
  have h := textarea_line_clipping sampleTextareaField sampleTextareaRecord rfl
    (by decide) (by decide)
  have hv : lookupValue sampleTextareaRecord sampleTextareaField.name =
      JSValue.str "alpha\nbeta\ngamma" := by decide
  have hsplit : (splitLines (jsToString (JSValue.str "alpha\nbeta\ngamma"))).enum =
      [(0, "alpha"), (1, "beta"), (2, "gamma")] := by decide
  have hlh : lineHeight sampleTextareaField = 24 := by
    norm_num [lineHeight, fontSizeOf, jsOrNum, sampleTextareaField]
  rw [h, hv, hsplit]
  simp only [hlh, List.filter_cons, List.filter_nil]
  norm_num [sampleTextareaField, nbspLine]
  decide

/-- Auxiliary for C10: one field's error list is empty exactly when neither
of its checks fired. -/
theorem fieldErrors_eq_nil_iff (f : FieldSchema) (v : JSValue) :
    fieldErrors f v = [] ↔ (requiredErrorB f v = false ∧ typeErrorB f v = false) := by
  unfold fieldErrors
  cases hr : requiredErrorB f v <;> cases ht : typeErrorB f v <;> simp

/-- Auxiliary for C10: per-field agreement between the imperative checks of
`validateForm` and the declarative description. -/
theorem specFieldOK_eq (f : FieldSchema) (v : JSValue) :
    specFieldOK f v = (!requiredErrorB f v && !typeErrorB f v) := by
  unfold specFieldOK requiredErrorB typeErrorB
  cases v with
  | undefined => simp [jsTruthy]
  | null => simp [jsTruthy]
  | bool b => cases b <;> cases f.required <;> simp [jsTruthy]
  | num q =>
    by_cases hq : q = 0 <;> cases f.required <;>
      simp [jsTruthy, hq, Bool.not_and, Bool.not_or, Bool.not_not]
  | str s =>
    by_cases hs : s = "" <;>
      by_cases he : f.type = "email" <;>
        by_cases hn : f.type = "number" <;>
          cases f.required <;>
            simp [jsTruthy, kindCheckOK, hs, he, hn,
              Bool.not_and, Bool.not_or, Bool.not_not]

/-- Auxiliary for C10: the accumulated error list over a field list is empty
exactly when every field satisfies the declarative description. -/
theorem validateForm_eq_aux (fd : DataRecord) (l : List FieldSchema) :
    ((l.map fun f => fieldErrors f (lookupValue fd f.name)).flatten = []) ↔
    (∀ f ∈ l, specFieldOK f (lookupValue fd f.name) = true) := by
  induction l with
  | nil => simp
  | cons a as ih =>
    simp only [List.map_cons, List.flatten_cons, List.append_eq_nil, ih,
      List.forall_mem_cons, fieldErrors_eq_nil_iff, specFieldOK_eq,
      Bool.and_eq_true, Bool.not_eq_true']

/-- Claim C10: `validateForm` returns true exactly when every required
field's value is truthy and not whitespace-only and every non-empty string
value passes its kind-specific check (the email regex, or a non-NaN `Number`
conversion); in particular a required checkbox whose value is `false` fails
validation. -/
theorem validateForm_spec (t : TemplateData) (fd : DataRecord) :
    validateForm t fd = validSpec t fd ∧
    (∀ f ∈ getAllFields t, f.required = true →
      lookupValue fd f.name = JSValue.bool false → validateForm t fd = false) := by
  have heq : validateForm t fd = validSpec t fd := by
    rw [Bool.eq_iff_iff]
    unfold validateForm validateErrors validSpec
    rw [List.isEmpty_iff, List.all_eq_true]
    exact validateForm_eq_aux fd (getAllFields t)
  refine ⟨heq, fun f hf hreq hval => ?_⟩
  rw [heq]
  cases hvs : validSpec t fd with
  | false => rfl
  | true =>
    exfalso
    have hflds := List.all_eq_true.mp hvs f hf
    rw [hval] at hflds
    simp [specFieldOK, jsTruthy, hreq] at hflds

def requiredCheckboxField : FieldSchema :=
  { name := "agree", type := "checkbox", x := 0, y := 0, width := 20, height := 20,
    required := true }

def uncheckedRecord : DataRecord := [("agree", JSValue.bool false)]

def templateOneCheckbox : TemplateData := { schemas := [[requiredCheckboxField]] }

/-- Witness for C10: a required checkbox with value `false` makes
`validateForm` return false. -/
theorem validateForm_spec_witness :
    validateForm templateOneCheckbox uncheckedRecord = false := by
  exact (validateForm_spec templateOneCheckbox uncheckedRecord).2 requiredCheckboxField
    (by decide) (by decide) (by decide)

end IPLCForms
